import Mathlib

/-!
Verification of the event-distribution backbone of the ecommerce-microservice
repository (shared/src/utils — EventBus, EventRegistry; shared/src/database —
ConnectionManager, KafkaConnection).

The TypeScript runtime values are embedded as a JSON-like value type `JVal`
with an extra constructor for `Date` objects and one for `undefined`; events
are JavaScript objects, i.e. ordered association lists of fields.  Backend
I/O (Kafka producer sends, Redis publishes) is modelled as explicit state
passing over a `World` holding the append log and the pub/sub trace, with the
success of each external write supplied by a boolean environment input.
`JSON.stringify`/`JSON.parse` are modelled at the tree level by `jsonify`
(dates become ISO-8601 strings, fields holding `undefined` are dropped);
JavaScript's relational comparison, including its `ToNumber` coercion of
non-numeric strings to NaN, is modelled by `jsLt`/`jsGE`/`jsLE`.
-/

/-- A JavaScript runtime value: JSON values plus `Date` objects and
`undefined`.  `num` carries an `Int` since all numbers appearing in the
event backbone are integers (millisecond timestamps, counters). -/
inductive JVal where
  | undef : JVal
  | null : JVal
  | bool : Bool → JVal
  | num : Int → JVal
  | str : String → JVal
  | date : Int → JVal
  | arr : List JVal → JVal
  | obj : List (String × JVal) → JVal
deriving Repr

/-- A JavaScript object: an ordered list of fields with pairwise-distinct
keys (object literals and spread/override preserve insertion order). -/
abbrev Obj := List (String × JVal)

/-- Property read `o[k]`: the first field named `k`, `undefined` if absent. -/
def getF (o : Obj) (k : String) : JVal :=
  match o with
  | [] => JVal.undef
  | (k', v) :: rest => if k' == k then v else getF rest k

/-- Property write as performed by an object literal `{...o, k: v}`: an
existing field keeps its position and is overwritten, a new field is
appended at the end. -/
def setField (o : Obj) (k : String) (v : JVal) : Obj :=
  match o with
  | [] => [(k, v)]
  | (k', v') :: rest => if k' == k then (k', v) :: rest else (k', v') :: setField rest k v

/-- Whether object `o` has a field named `k`. -/
def hasF (o : Obj) (k : String) : Bool :=
  o.any (fun p => p.1 == k)

/-- Decimal digits of a natural number, most significant first. -/
def natDigits (n : Nat) : List Char :=
  if _h : n < 10 then [Nat.digitChar n]
  else natDigits (n / 10) ++ [Nat.digitChar (n % 10)]
decreasing_by
  exact Nat.div_lt_self (by omega) (by omega)

/-- Decimal rendering of a natural number, as produced by JavaScript
number-to-string conversion on a nonnegative integer. -/
def natRepr (n : Nat) : String :=
  ⟨natDigits n⟩

/-- Rendering of an integer, as produced by JavaScript number-to-string
conversion on an integer. -/
def intRepr (n : Int) : String :=
  if n < 0 then "-" ++ natRepr (-n).toNat else natRepr n.toNat

/-- Zero-pad a decimal rendering to the given width. -/
def padTo (width : Nat) (n : Nat) : String :=
  let s := natRepr n
  if s.length < width then (⟨List.replicate (width - s.length) '0'⟩ : String) ++ s else s

/-- Proleptic Gregorian civil date (year, month, day) of a day count
relative to 1970-01-01 (Howard Hinnant's `civil_from_days`). -/
def civilFromDays (z0 : Int) : Int × Nat × Nat :=
  let z : Int := z0 + 719468
  let era : Int := Int.fdiv z 146097
  let doe : Nat := (z - era * 146097).toNat
  let yoe : Nat := (doe - doe / 1460 + doe / 36524 - doe / 146096) / 365
  let y : Int := (yoe : Int) + era * 400
  let doy : Nat := doe - (365 * yoe + yoe / 4 - yoe / 100)
  let mp : Nat := (5 * doy + 2) / 153
  let d : Nat := doy - (153 * mp + 2) / 5 + 1
  let m : Nat := if mp < 10 then mp + 3 else mp - 9
  (if m ≤ 2 then y + 1 else y, m, d)

/-- Year field of an ISO-8601 date string as produced by
`Date.prototype.toISOString`: four digits for 0..9999, otherwise the
expanded six-digit form with an explicit sign. -/
def yearStr (y : Int) : String :=
  if 0 ≤ y ∧ y ≤ 9999 then padTo 4 y.toNat
  else if y < 0 then "-" ++ padTo 6 (-y).toNat
  else "+" ++ padTo 6 y.toNat

/-- The ISO-8601 rendering `YYYY-MM-DDTHH:mm:ss.sssZ` of a millisecond
timestamp, as produced by the toISOString and toJSON methods of `Date`. -/
def isoOf (ms : Int) : String :=
  let days : Int := Int.fdiv ms 86400000
  let msod : Nat := (Int.emod ms 86400000).toNat
  let c := civilFromDays days
  yearStr c.1 ++ "-" ++
    (padTo 2 c.2.1 ++ "-" ++ (padTo 2 c.2.2 ++ "T" ++ (padTo 2 (msod / 3600000) ++ ":" ++
      (padTo 2 (msod % 3600000 / 60000) ++ ":" ++ (padTo 2 (msod % 60000 / 1000) ++ "." ++
        (padTo 3 (msod % 1000) ++ "Z"))))))

/-- Numeric value of a decimal digit character, `none` otherwise. -/
def digitVal? (c : Char) : Option Nat :=
  if '0' ≤ c ∧ c ≤ '9' then some (c.toNat - '0'.toNat) else none

/-- Consume decimal digits, accumulating their value; fails on the first
non-digit character.  The accumulator is `none` until a digit is seen. -/
def parseDigits : List Char → Option Nat → Option Nat
  | [], acc => acc
  | c :: cs, acc =>
    match digitVal? c with
    | some d => parseDigits cs (some ((acc.getD 0) * 10 + d))
    | none => none

/-- JavaScript `ToNumber` on a string, restricted to the optional-sign
decimal-integer forms that arise in this development (`none` models NaN;
the empty string converts to 0 as in JavaScript).  Other JavaScript
numeric string forms (whitespace, fractions, exponents, hex) do not occur
here and are mapped to NaN. -/
def strToNum? (s : String) : Option Int :=
  match s.data with
  | [] => some 0
  | c :: cs =>
    if c = '-' then (parseDigits cs none).map (fun n => -(n : Int))
    else if c = '+' then (parseDigits cs none).map (fun n => (n : Int))
    else (parseDigits (c :: cs) none).map (fun n => (n : Int))

mutual

/-- JavaScript string conversion of a value (template literals, `String()`).
Date rendering is modelled by its ISO timestamp (the actual human-readable
rendering by `Date` differs; no claim depends on that corner). -/
def jsToStr : JVal → String
  | JVal.undef => "undefined"
  | JVal.null => "null"
  | JVal.bool b => cond b "true" "false"
  | JVal.num n => intRepr n
  | JVal.str s => s
  | JVal.date ms => isoOf ms
  | JVal.arr xs => jsToStrList xs
  | JVal.obj _ => "[object Object]"

/-- The array-to-string conversion of `Array.prototype`: elements joined
with commas, `null` and `undefined` elements rendered as the empty string. -/
def jsToStrList : List JVal → String
  | [] => ""
  | [JVal.undef] => ""
  | [JVal.null] => ""
  | [v] => jsToStr v
  | JVal.undef :: rest => "," ++ jsToStrList rest
  | JVal.null :: rest => "," ++ jsToStrList rest
  | v :: rest => jsToStr v ++ "," ++ jsToStrList rest

end

/-- JavaScript ToPrimitive with number hint: a `Date` yields its millisecond value,
arrays and plain objects fall back to their string conversion. -/
def toPrimitiveNum : JVal → JVal
  | JVal.date ms => JVal.num ms
  | JVal.arr xs => JVal.str (jsToStrList xs)
  | JVal.obj _ => JVal.str "[object Object]"
  | v => v

/-- JavaScript ToNumber on a primitive value; `none` models NaN. -/
def toNumber? : JVal → Option Int
  | JVal.undef => none
  | JVal.null => some 0
  | JVal.bool b => some (cond b 1 0)
  | JVal.num n => some n
  | JVal.str s => strToNum? s
  | JVal.date ms => some ms
  | JVal.arr xs => strToNum? (jsToStrList xs)
  | JVal.obj _ => strToNum? "[object Object]"

/-- JavaScript abstract relational comparison `a < b`: after `ToPrimitive`,
two strings compare lexicographically, otherwise both sides go through
`ToNumber` and the result is undefined (`none`) when either is NaN. -/
def jsLt (a b : JVal) : Option Bool :=
  match toPrimitiveNum a, toPrimitiveNum b with
  | JVal.str s1, JVal.str s2 => some (decide (s1 < s2))
  | pa, pb =>
    match toNumber? pa, toNumber? pb with
    | some x, some y => some (decide (x < y))
    | _, _ => none

/-- JavaScript `a >= b`: the negation of `a < b`, with an undefined
comparison (NaN) yielding `false`. -/
def jsGE (a b : JVal) : Bool :=
  match jsLt a b with
  | none => false
  | some r => !r

/-- JavaScript `a <= b`: the negation of `b < a`, with an undefined
comparison (NaN) yielding `false`. -/
def jsLE (a b : JVal) : Bool :=
  match jsLt b a with
  | none => false
  | some r => !r

mutual

/-- The composite of `JSON.stringify` and `JSON.parse`, modelled at the tree
level: dates are serialized by their toJSON method to the ISO string, object
fields whose value is `undefined` are dropped, `undefined` array elements
become `null`.  (The intermediate JSON text is standard and round-trips the
tree, so it is not materialized.) -/
def jsonify : JVal → JVal
  | JVal.undef => JVal.undef
  | JVal.null => JVal.null
  | JVal.bool b => JVal.bool b
  | JVal.num n => JVal.num n
  | JVal.str s => JVal.str s
  | JVal.date ms => JVal.str (isoOf ms)
  | JVal.arr xs => JVal.arr (jsonifyList xs)
  | JVal.obj fs => JVal.obj (jsonifyFields fs)

def jsonifyList : List JVal → List JVal
  | [] => []
  | v :: rest =>
    (match jsonify v with
     | JVal.undef => JVal.null
     | v' => v') :: jsonifyList rest

def jsonifyFields : List (String × JVal) → List (String × JVal)
  | [] => []
  | (k, v) :: rest =>
    match jsonify v with
    | JVal.undef => jsonifyFields rest
    | v' => (k, v') :: jsonifyFields rest

end

/-- A JavaScript `Error`: a message and an optional stack (the `stack`
property is a string when present, `undefined` otherwise). -/
structure JsError where
  message : String
  stack : JVal
deriving Repr

/-- The observable effects of the event backbone: the durable append log
(Kafka records in send order, tagged with their topic) and the real-time
pub/sub trace (Redis publishes in order, tagged with their channel). -/
structure KMessage where
  key : JVal
  value : JVal
  headers : List (String × JVal)
deriving Repr

structure World where
  kafka : List (String × KMessage)
  redis : List (String × JVal)
deriving Repr

/-- Whether an `Except` computation succeeded. -/
def exceptOk : Except JsError α → Bool
  | Except.ok _ => true
  | Except.error _ => false

/-- The semantics of `Promise.all` over a list of settled computations: succeeds with all
results when every element succeeded, otherwise rejects with the first
rejection. -/
def promiseAll : List (Except JsError α) → Except JsError (List α)
  | [] => Except.ok []
  | x :: xs => do
    let a ← x
    let rest ← promiseAll xs
    pure (a :: rest)

/-- The semantics of `Promise.all` over exactly two computations whose results are ignored. -/
def promiseAll2 (a b : Except JsError Unit) : Except JsError Unit :=
  match a with
  | Except.error e => Except.error e
  | Except.ok _ =>
    match b with
    | Except.error e => Except.error e
    | Except.ok _ => Except.ok ()

namespace EventBus

/-- EventBus.generateEventId: the template literal over a fresh clock read
and a fresh random draw.  `nowMs` is the value of `Date.now()` (a
nonnegative integer of milliseconds) and `rand` the suffix produced by
`Math.random().toString(36).substr(2, 9)` (base-36 characters, never
containing a dash). -/
def generateEventId (nowMs : Nat) (rand : String) : String :=
  natRepr nowMs ++ "-" ++ rand

/-- The single Kafka record built by EventBus.publishEvent for an event:
key `event.id`, value `JSON.stringify(event)`, headers
`{eventType, source, version}` read off the event. -/
def mkKafkaRecord (e : Obj) : KMessage :=
  { key := getF e "id"
    value := jsonify (JVal.obj e)
    headers := [("eventType", getF e "type"), ("source", getF e "source"),
                ("version", getF e "version")] }

/-- EventBus.publishEvent: sends one record to `topic` via the Kafka
producer.  The environment input `kOk` tells whether the broker accepted
the send; on failure the error is rethrown to the caller and nothing is
appended. -/
def publishEvent (kOk : Bool) (w : World) (topic : String) (e : Obj) :
    Except JsError Unit × World :=
  if kOk then
    (Except.ok (), { w with kafka := w.kafka ++ [(topic, mkKafkaRecord e)] })
  else
    (Except.error { message := "kafka send failed", stack := JVal.undef }, w)

/-- EventBus.publishRealTimeEvent: publishes `JSON.stringify(event)` on the
Redis channel.  The environment input `rOk` tells whether the broadcast
succeeded; on failure the error is rethrown and nothing is recorded. -/
def publishRealTimeEvent (rOk : Bool) (w : World) (channel : String) (e : Obj) :
    Except JsError Unit × World :=
  if rOk then
    (Except.ok (), { w with redis := w.redis ++ [(channel, jsonify (JVal.obj e))] })
  else
    (Except.error { message := "redis publish failed", stack := JVal.undef }, w)

/-- The typed event literal built by EventBus.publishUserCreated. -/
def userCreatedEvent (idNow : Nat) (rand : String) (tsNow : Int)
    (userId : String) (userData : JVal) : Obj :=
  [("id", JVal.str (generateEventId idNow rand)), ("type", JVal.str "USER_CREATED"),
   ("timestamp", JVal.date tsNow), ("source", JVal.str "user-service"),
   ("version", JVal.str "1.0"), ("userId", JVal.str userId), ("userData", userData)]

/-- EventBus.publishUserCreated: builds the typed event once and fans it out
to both channels under `Promise.all`; both sends are attempted, and the call
rejects if either rejects. -/
def publishUserCreated (kOk rOk : Bool) (w : World) (idNow : Nat) (rand : String)
    (tsNow : Int) (userId : String) (userData : JVal) : Except JsError Unit × World :=
  let event := userCreatedEvent idNow rand tsNow userId userData
  let r1 := publishEvent kOk w "user-events" event
  let r2 := publishRealTimeEvent rOk r1.2 "user:created" event
  (promiseAll2 r1.1 r2.1, r2.2)

/-- The typed event literal built by EventBus.publishUserUpdated. -/
def userUpdatedEvent (idNow : Nat) (rand : String) (tsNow : Int)
    (userId : String) (userData : JVal) : Obj :=
  [("id", JVal.str (generateEventId idNow rand)), ("type", JVal.str "USER_UPDATED"),
   ("timestamp", JVal.date tsNow), ("source", JVal.str "user-service"),
   ("version", JVal.str "1.0"), ("userId", JVal.str userId), ("userData", userData)]

/-- EventBus.publishUserUpdated. -/
def publishUserUpdated (kOk rOk : Bool) (w : World) (idNow : Nat) (rand : String)
    (tsNow : Int) (userId : String) (userData : JVal) : Except JsError Unit × World :=
  let event := userUpdatedEvent idNow rand tsNow userId userData
  let r1 := publishEvent kOk w "user-events" event
  let r2 := publishRealTimeEvent rOk r1.2 "user:updated" event
  (promiseAll2 r1.1 r2.1, r2.2)

/-- The typed event literal built by EventBus.publishUserDeleted. -/
def userDeletedEvent (idNow : Nat) (rand : String) (tsNow : Int)
    (userId : String) : Obj :=
  [("id", JVal.str (generateEventId idNow rand)), ("type", JVal.str "USER_DELETED"),
   ("timestamp", JVal.date tsNow), ("source", JVal.str "user-service"),
   ("version", JVal.str "1.0"), ("userId", JVal.str userId),
   ("userData", JVal.obj [("id", JVal.str userId)])]

/-- EventBus.publishUserDeleted. -/
def publishUserDeleted (kOk rOk : Bool) (w : World) (idNow : Nat) (rand : String)
    (tsNow : Int) (userId : String) : Except JsError Unit × World :=
  let event := userDeletedEvent idNow rand tsNow userId
  let r1 := publishEvent kOk w "user-events" event
  let r2 := publishRealTimeEvent rOk r1.2 "user:deleted" event
  (promiseAll2 r1.1 r2.1, r2.2)

/-- The typed event literal built by EventBus.publishOrderCreated. -/
def orderCreatedEvent (idNow : Nat) (rand : String) (tsNow : Int)
    (orderId userId : String) (orderData : JVal) : Obj :=
  [("id", JVal.str (generateEventId idNow rand)), ("type", JVal.str "ORDER_CREATED"),
   ("timestamp", JVal.date tsNow), ("source", JVal.str "order-service"),
   ("version", JVal.str "1.0"), ("orderId", JVal.str orderId),
   ("userId", JVal.str userId), ("orderData", orderData)]

/-- EventBus.publishOrderCreated. -/
def publishOrderCreated (kOk rOk : Bool) (w : World) (idNow : Nat) (rand : String)
    (tsNow : Int) (orderId userId : String) (orderData : JVal) :
    Except JsError Unit × World :=
  let event := orderCreatedEvent idNow rand tsNow orderId userId orderData
  let r1 := publishEvent kOk w "order-events" event
  let r2 := publishRealTimeEvent rOk r1.2 "order:created" event
  (promiseAll2 r1.1 r2.1, r2.2)

/-- The typed event literal built by EventBus.publishOrderUpdated. -/
def orderUpdatedEvent (idNow : Nat) (rand : String) (tsNow : Int)
    (orderId userId : String) (orderData : JVal) : Obj :=
  [("id", JVal.str (generateEventId idNow rand)), ("type", JVal.str "ORDER_UPDATED"),
   ("timestamp", JVal.date tsNow), ("source", JVal.str "order-service"),
   ("version", JVal.str "1.0"), ("orderId", JVal.str orderId),
   ("userId", JVal.str userId), ("orderData", orderData)]

/-- EventBus.publishOrderUpdated. -/
def publishOrderUpdated (kOk rOk : Bool) (w : World) (idNow : Nat) (rand : String)
    (tsNow : Int) (orderId userId : String) (orderData : JVal) :
    Except JsError Unit × World :=
  let event := orderUpdatedEvent idNow rand tsNow orderId userId orderData
  let r1 := publishEvent kOk w "order-events" event
  let r2 := publishRealTimeEvent rOk r1.2 "order:updated" event
  (promiseAll2 r1.1 r2.1, r2.2)

/-- The typed event literal built by EventBus.publishOrderCancelled. -/
def orderCancelledEvent (idNow : Nat) (rand : String) (tsNow : Int)
    (orderId userId : String) (orderData : JVal) : Obj :=
  [("id", JVal.str (generateEventId idNow rand)), ("type", JVal.str "ORDER_CANCELLED"),
   ("timestamp", JVal.date tsNow), ("source", JVal.str "order-service"),
   ("version", JVal.str "1.0"), ("orderId", JVal.str orderId),
   ("userId", JVal.str userId), ("orderData", orderData)]

/-- EventBus.publishOrderCancelled. -/
def publishOrderCancelled (kOk rOk : Bool) (w : World) (idNow : Nat) (rand : String)
    (tsNow : Int) (orderId userId : String) (orderData : JVal) :
    Except JsError Unit × World :=
  let event := orderCancelledEvent idNow rand tsNow orderId userId orderData
  let r1 := publishEvent kOk w "order-events" event
  let r2 := publishRealTimeEvent rOk r1.2 "order:cancelled" event
  (promiseAll2 r1.1 r2.1, r2.2)

/-- The typed event literal built by EventBus.publishPaymentProcessed. -/
def paymentProcessedEvent (idNow : Nat) (rand : String) (tsNow : Int)
    (paymentId orderId userId : String) (paymentData : JVal) : Obj :=
  [("id", JVal.str (generateEventId idNow rand)), ("type", JVal.str "PAYMENT_PROCESSED"),
   ("timestamp", JVal.date tsNow), ("source", JVal.str "payment-service"),
   ("version", JVal.str "1.0"), ("paymentId", JVal.str paymentId),
   ("orderId", JVal.str orderId), ("userId", JVal.str userId),
   ("paymentData", paymentData)]

/-- EventBus.publishPaymentProcessed. -/
def publishPaymentProcessed (kOk rOk : Bool) (w : World) (idNow : Nat) (rand : String)
    (tsNow : Int) (paymentId orderId userId : String) (paymentData : JVal) :
    Except JsError Unit × World :=
  let event := paymentProcessedEvent idNow rand tsNow paymentId orderId userId paymentData
  let r1 := publishEvent kOk w "payment-events" event
  let r2 := publishRealTimeEvent rOk r1.2 "payment:processed" event
  (promiseAll2 r1.1 r2.1, r2.2)

/-- The typed event literal built by EventBus.publishPaymentFailed. -/
def paymentFailedEvent (idNow : Nat) (rand : String) (tsNow : Int)
    (paymentId orderId userId : String) (paymentData : JVal) : Obj :=
  [("id", JVal.str (generateEventId idNow rand)), ("type", JVal.str "PAYMENT_FAILED"),
   ("timestamp", JVal.date tsNow), ("source", JVal.str "payment-service"),
   ("version", JVal.str "1.0"), ("paymentId", JVal.str paymentId),
   ("orderId", JVal.str orderId), ("userId", JVal.str userId),
   ("paymentData", paymentData)]

/-- EventBus.publishPaymentFailed. -/
def publishPaymentFailed (kOk rOk : Bool) (w : World) (idNow : Nat) (rand : String)
    (tsNow : Int) (paymentId orderId userId : String) (paymentData : JVal) :
    Except JsError Unit × World :=
  let event := paymentFailedEvent idNow rand tsNow paymentId orderId userId paymentData
  let r1 := publishEvent kOk w "payment-events" event
  let r2 := publishRealTimeEvent rOk r1.2 "payment:failed" event
  (promiseAll2 r1.1 r2.1, r2.2)

/-- The typed event literal built by EventBus.publishProductCreated. -/
def productCreatedEvent (idNow : Nat) (rand : String) (tsNow : Int)
    (productId vendorId : String) (productData : JVal) : Obj :=
  [("id", JVal.str (generateEventId idNow rand)), ("type", JVal.str "PRODUCT_CREATED"),
   ("timestamp", JVal.date tsNow), ("source", JVal.str "product-service"),
   ("version", JVal.str "1.0"), ("productId", JVal.str productId),
   ("vendorId", JVal.str vendorId), ("productData", productData)]

/-- EventBus.publishProductCreated. -/
def publishProductCreated (kOk rOk : Bool) (w : World) (idNow : Nat) (rand : String)
    (tsNow : Int) (productId vendorId : String) (productData : JVal) :
    Except JsError Unit × World :=
  let event := productCreatedEvent idNow rand tsNow productId vendorId productData
  let r1 := publishEvent kOk w "product-events" event
  let r2 := publishRealTimeEvent rOk r1.2 "product:created" event
  (promiseAll2 r1.1 r2.1, r2.2)

/-- The typed event literal built by EventBus.publishProductUpdated. -/
def productUpdatedEvent (idNow : Nat) (rand : String) (tsNow : Int)
    (productId vendorId : String) (productData : JVal) : Obj :=
  [("id", JVal.str (generateEventId idNow rand)), ("type", JVal.str "PRODUCT_UPDATED"),
   ("timestamp", JVal.date tsNow), ("source", JVal.str "product-service"),
   ("version", JVal.str "1.0"), ("productId", JVal.str productId),
   ("vendorId", JVal.str vendorId), ("productData", productData)]

/-- EventBus.publishProductUpdated. -/
def publishProductUpdated (kOk rOk : Bool) (w : World) (idNow : Nat) (rand : String)
    (tsNow : Int) (productId vendorId : String) (productData : JVal) :
    Except JsError Unit × World :=
  let event := productUpdatedEvent idNow rand tsNow productId vendorId productData
  let r1 := publishEvent kOk w "product-events" event
  let r2 := publishRealTimeEvent rOk r1.2 "product:updated" event
  (promiseAll2 r1.1 r2.1, r2.2)

/-- The typed event literal built by EventBus.publishInventoryUpdated. -/
def inventoryUpdatedEvent (idNow : Nat) (rand : String) (tsNow : Int)
    (productId vendorId : String) (inventoryData : JVal) : Obj :=
  [("id", JVal.str (generateEventId idNow rand)), ("type", JVal.str "INVENTORY_UPDATED"),
   ("timestamp", JVal.date tsNow), ("source", JVal.str "product-service"),
   ("version", JVal.str "1.0"), ("productId", JVal.str productId),
   ("vendorId", JVal.str vendorId), ("productData", inventoryData)]

/-- EventBus.publishInventoryUpdated. -/
def publishInventoryUpdated (kOk rOk : Bool) (w : World) (idNow : Nat) (rand : String)
    (tsNow : Int) (productId vendorId : String) (inventoryData : JVal) :
    Except JsError Unit × World :=
  let event := inventoryUpdatedEvent idNow rand tsNow productId vendorId inventoryData
  let r1 := publishEvent kOk w "product-events" event
  let r2 := publishRealTimeEvent rOk r1.2 "inventory:updated" event
  (promiseAll2 r1.1 r2.1, r2.2)

end EventBus

namespace EventBus

/-- The synthetic record built by EventBus.handleDeadLetterEvent: the object
literal spreads the failed event and then overrides, in order, `id` (a fresh
generator draw), `type` (the template literal appending "_DEAD_LETTER"),
`timestamp` (a fresh `Date`), `originalEventId` (the failed event's id) and
`error` (`{message, stack}` from the error).  `idNow`/`rand` are the
generator's clock and random draws and `tsNow` the timestamp clock read. -/
def deadLetterEventOf (e : Obj) (err : JsError) (idNow : Nat) (rand : String)
    (tsNow : Int) : Obj :=
  setField (setField (setField (setField (setField e
    "id" (JVal.str (generateEventId idNow rand)))
    "type" (JVal.str (jsToStr (getF e "type") ++ "_DEAD_LETTER")))
    "timestamp" (JVal.date tsNow))
    "originalEventId" (getF e "id"))
    "error" (JVal.obj [("message", JVal.str err.message), ("stack", err.stack)])

/-- EventBus.handleDeadLetterEvent: builds the dead-letter record and
publishes it to the fixed topic. -/
def handleDeadLetterEvent (kOk : Bool) (w : World) (e : Obj) (err : JsError)
    (idNow : Nat) (rand : String) (tsNow : Int) : Except JsError Unit × World :=
  publishEvent kOk w "dead-letter-events" (deadLetterEventOf e err idNow rand tsNow)

/-- Property read on a parsed JSON value (`event.timestamp` after
`JSON.parse`): field lookup when the value is an object, `undefined`
otherwise. -/
def jsGet (v : JVal) (k : String) : JVal :=
  match v with
  | JVal.obj fs => getF fs k
  | _ => JVal.undef

/-- The window test of EventBus.replayEvents, exactly as written in the
source: `event.timestamp >= fromTimestamp && event.timestamp <= toTimestamp`,
where `event` is the parsed message value and the bounds are `Date`
objects. -/
def replayFilter (fromMs toMs : Int) (ev : JVal) : Bool :=
  jsGE (jsGet ev "timestamp") (JVal.date fromMs) &&
    jsLE (jsGet ev "timestamp") (JVal.date toMs)

/-- The handler invocations made by the `eachMessage` callback of
EventBus.replayEvents over the messages delivered to its consumer, in
order: a message with no value is skipped, otherwise its parsed value is
passed to the handler exactly when the window test holds. -/
def replayInvocations (fromMs toMs : Int) : List (Option JVal) → List JVal
  | [] => []
  | none :: rest => replayInvocations fromMs toMs rest
  | some v :: rest =>
    if replayFilter fromMs toMs v then v :: replayInvocations fromMs toMs rest
    else replayInvocations fromMs toMs rest

/-- A consumer-group subscription as issued to kafkajs. -/
structure Subscription where
  groupId : String
  topics : List String
  fromBeginning : Bool
deriving Repr

/-- The subscription made by EventBus.replayEvents: the group id is the
template literal over `Date.now()`, and `consumer.subscribe({ topics:
[topic] })` passes no `fromBeginning` flag, which kafkajs defaults to
`false` (a new group starts from the latest offset). -/
def replaySubscription (topic : String) (nowMs : Nat) : Subscription :=
  { groupId := "replay-" ++ natRepr nowMs, topics := [topic], fromBeginning := false }

end EventBus

namespace EventRegistry

/-- An in-process event handler: the `handle` method of a registered
`EventHandler`, which either completes or throws. -/
abbrev EHandler := Obj → Except JsError Unit

/-- The handler registry: a map from event type to the ordered list of
registered handlers (insertion order of first registration). -/
abbrev Registry := List (String × List EHandler)

/-- EventRegistry.register: creates the entry on first registration for a
type, then appends the handler to the type's list. -/
def register (reg : Registry) (eventType : String) (h : EHandler) : Registry :=
  if reg.any (fun p => p.1 == eventType) then
    reg.map (fun p => if p.1 == eventType then (p.1, p.2 ++ [h]) else p)
  else
    reg ++ [(eventType, [h])]

/-- Lookup of `this.handlers.get(event.type) || []`: the handlers registered
for the event's type, the empty list when the type has no entry or the
event's `type` field is not a string (a string-keyed `Map` cannot match a
non-string key). -/
def handlersOf (reg : Registry) (e : Obj) : List EHandler :=
  match getF e "type" with
  | JVal.str t =>
    match reg.find? (fun p => p.1 == t) with
    | some p => p.2
    | none => []
  | _ => []

/-- The per-handler wrapper inside dispatch: the handler call is awaited
under try/catch, a failure being caught and logged (the returned `some err`
is the logged failure) instead of propagating. -/
def tryHandle (h : EHandler) (e : Obj) : Except JsError (Option JsError) :=
  match h e with
  | Except.ok _ => Except.ok none
  | Except.error err => Except.ok (some err)

/-- EventRegistry.dispatch: runs every registered handler for the event's
type under `Promise.all`, each wrapped in try/catch; the result collects
each handler's settled outcome (`none` for success, `some err` for a caught
failure). -/
def dispatch (reg : Registry) (e : Obj) : Except JsError (List (Option JsError)) :=
  promiseAll ((handlersOf reg e).map (fun h => tryHandle h e))

/-- The settled outcome of one handler invocation, for specification
purposes: `none` when the handler completed, `some err` when it threw. -/
def settledResult (r : Except JsError Unit) : Option JsError :=
  match r with
  | Except.ok _ => none
  | Except.error err => some err

end EventRegistry

/-- Outcomes of the backend liveness probes, supplied by the environment:
the database `SELECT 1` query, the Redis `ping` (whose success value is the
reply string), and the three steps of the Kafka admin probe (connect, list
topics, disconnect).  Each probe step either completes or throws. -/
structure HealthEnv where
  dbQuery : Except JsError Unit
  redisPing : Except JsError String
  adminConnect : Except JsError Unit
  listTopics : Except JsError Unit
  adminDisconnect : Except JsError Unit

namespace ConnectionModel

/-- DatabaseConnection.healthCheck: `true` when the probe query completes,
`false` when it throws (the error is caught and logged). -/
def databaseHealthCheck (env : HealthEnv) : Bool :=
  match env.dbQuery with
  | Except.ok _ => true
  | Except.error _ => false

/-- RedisConnection.healthCheck: `true` exactly when `ping` completes with
the reply "PONG"; a throw is caught and yields `false`. -/
def redisHealthCheck (env : HealthEnv) : Bool :=
  match env.redisPing with
  | Except.ok r => r == "PONG"
  | Except.error _ => false

/-- KafkaConnection.healthCheck: `true` when admin connect, listTopics and
admin disconnect all complete; any throw is caught and yields `false`. -/
def kafkaHealthCheck (env : HealthEnv) : Bool :=
  match env.adminConnect with
  | Except.error _ => false
  | Except.ok _ =>
    match env.listTopics with
    | Except.error _ => false
    | Except.ok _ =>
      match env.adminDisconnect with
      | Except.error _ => false
      | Except.ok _ => true

/-- The record returned by ConnectionManager.healthCheckAll. -/
structure HealthSnapshot where
  database : Bool
  redis : Bool
  kafka : Bool
  overall : Bool
deriving Repr, DecidableEq

/-- ConnectionManager.healthCheckAll: gathers the three probes and sets
`overall` to their conjunction. -/
def healthCheckAll (env : HealthEnv) : HealthSnapshot :=
  let database := databaseHealthCheck env
  let redis := redisHealthCheck env
  let kafka := kafkaHealthCheck env
  { database := database, redis := redis, kafka := kafka,
    overall := database && redis && kafka }

end ConnectionModel

namespace KafkaConnection

/-- The mutable static state of the KafkaConnection class.  Physical client
instances are tagged with a creation counter `nextId`; `producerCreations`
counts producer constructions and `consumerCreations` records the group id
of every physical consumer construction, so that "created at most once" is
observable. -/
structure KState where
  producer : Option Nat
  consumers : List (String × Nat)
  isConnected : Bool
  nextId : Nat
  producerCreations : Nat
  consumerCreations : List String
deriving Repr, DecidableEq

/-- The state at process start: no clients, nothing created. -/
def initState : KState :=
  { producer := none, consumers := [], isConnected := false, nextId := 0,
    producerCreations := 0, consumerCreations := [] }

/-- KafkaConnection.getProducer: returns the cached producer when present,
otherwise constructs (and connects) a fresh one and caches it. -/
def getProducer (s : KState) : Nat × KState :=
  match s.producer with
  | some p => (p, s)
  | none =>
    (s.nextId,
     { s with producer := some s.nextId, nextId := s.nextId + 1,
              producerCreations := s.producerCreations + 1 })

/-- KafkaConnection.getConsumer: returns the consumer cached under
`groupId` when present, otherwise constructs (and connects) a fresh one and
caches it under that group id. -/
def getConsumer (s : KState) (groupId : String) : Nat × KState :=
  match s.consumers.find? (fun p => p.1 == groupId) with
  | some p => (p.2, s)
  | none =>
    (s.nextId,
     { s with consumers := s.consumers ++ [(groupId, s.nextId)],
              nextId := s.nextId + 1,
              consumerCreations := s.consumerCreations ++ [groupId] })

/-- KafkaConnection.connect: a no-op when already connected, otherwise
ensures the producer exists and marks the class connected. -/
def connect (s : KState) : KState :=
  if s.isConnected then s
  else { (getProducer s).2 with isConnected := true }

/-- KafkaConnection.disconnect: a no-op when not connected; otherwise it
disconnects the producer and every cached consumer, clears the consumer
cache (`this.consumers.clear()`) and marks the class disconnected — but it
never clears the `producer` field. -/
def disconnect (s : KState) : KState :=
  if !s.isConnected then s
  else { s with consumers := [], isConnected := false }

/-- One call against the KafkaConnection class. -/
inductive KCall where
  | getProducer : KCall
  | getConsumer : String → KCall
  | connect : KCall
  | disconnect : KCall
deriving Repr, DecidableEq

/-- Effect of one call on the class state (return values discarded). -/
def step (s : KState) : KCall → KState
  | KCall.getProducer => (getProducer s).2
  | KCall.getConsumer g => (getConsumer s g).2
  | KCall.connect => connect s
  | KCall.disconnect => disconnect s

/-- Run a sequence of calls from the process-start state. -/
def run (calls : List KCall) : KState :=
  calls.foldl step initState

end KafkaConnection

/-! Concrete fixtures used by counterexamples and witnesses. -/

/-- An already-published event whose id happens to coincide with the
generator's next draw (clock at 5 ms, random suffix "abc"). -/
def probeEventSameId : Obj :=
  [("id", JVal.str "5-abc"), ("type", JVal.str "ORDER_CREATED"),
   ("timestamp", JVal.date 0), ("source", JVal.str "order-service"),
   ("version", JVal.str "1.0")]

/-- A dead-letter event being dead-lettered a second time: it already
carries `originalEventId` and `error` fields. -/
def probeEventRedead : Obj :=
  [("id", JVal.str "e2"), ("type", JVal.str "ORDER_CREATED_DEAD_LETTER"),
   ("timestamp", JVal.date 0), ("source", JVal.str "order-service"),
   ("version", JVal.str "1.0"), ("originalEventId", JVal.str "e1"),
   ("error", JVal.obj [("message", JVal.str "old failure"), ("stack", JVal.undef)])]

/-- A minimal well-formed event with the given timestamp and id, as the
publish path would build it. -/
def probeEventAt (t : Int) (n : String) : Obj :=
  [("id", JVal.str n), ("type", JVal.str "ORDER_CREATED"),
   ("timestamp", JVal.date t), ("source", JVal.str "order-service"),
   ("version", JVal.str "1.0")]

/-- The wire form of a topic holding events with timestamps -1, 0, 1 and 2
(each value is the serialized event, as produced by publishEvent). -/
def replayProbeMessages : List (Option JVal) :=
  [some (jsonify (JVal.obj (probeEventAt (-1) "e1"))),
   some (jsonify (JVal.obj (probeEventAt 0 "e2"))),
   some (jsonify (JVal.obj (probeEventAt 1 "e3"))),
   some (jsonify (JVal.obj (probeEventAt 2 "e4")))]

/-- A probe environment in which the database and Kafka probes succeed and
the Redis probe throws. -/
def probeHealthEnv : HealthEnv :=
  { dbQuery := Except.ok ()
    redisPing := Except.error { message := "connection refused", stack := JVal.undef }
    adminConnect := Except.ok ()
    listTopics := Except.ok ()
    adminDisconnect := Except.ok () }

/-- The call sequence connect; getConsumer "g"; disconnect; getConsumer "g"
against the KafkaConnection class. -/
def probeKafkaCalls : List KafkaConnection.KCall :=
  [KafkaConnection.KCall.connect,
   KafkaConnection.KCall.getConsumer "g",
   KafkaConnection.KCall.disconnect,
   KafkaConnection.KCall.getConsumer "g"]

/-- A concrete error used by counterexamples and witnesses. -/
def jsErrBoom : JsError :=
  { message := "boom", stack := JVal.str "stacktrace" }

/-- The event ids produced by a trace of generator invocations, each
invocation described by its environment draws (clock milliseconds, random
suffix). -/
def idsOf (trace : List (Nat × String)) : List String :=
  trace.map (fun p => EventBus.generateEventId p.1 p.2)

/-- The contract of a domain-specific dual-channel publish helper `f`
(parametrized over the success environment): the call succeeds exactly when both
channel writes succeed, the durable topic receives exactly the one typed
event record when the durable write succeeds, and the real-time channel
receives exactly the one serialized event when the broadcast succeeds —
so the durable record can be written even though the overall call fails. -/
def DualPublishSpec (f : Bool → Bool → World → Except JsError Unit × World)
    (topic channel : String) (ev : Obj) : Prop :=
  ∀ (kOk rOk : Bool) (w : World),
    ((f kOk rOk w).1 = Except.ok () ↔ (kOk = true ∧ rOk = true)) ∧
    (f kOk rOk w).2.kafka =
      (if kOk then w.kafka ++ [(topic, EventBus.mkKafkaRecord ev)] else w.kafka) ∧
    (f kOk rOk w).2.redis =
      (if rOk then w.redis ++ [(channel, jsonify (JVal.obj ev))] else w.redis)

/-! Helper lemmas about the object model. -/

theorem getF_setField_self (o : Obj) (k : String) (v : JVal) :
    getF (setField o k v) k = v := by
  induction o with
  | nil => simp [setField, getF]
  | cons p rest ih =>
    by_cases h : p.1 == k
    · simp [setField, getF, h]
    · simp [setField, getF, h, ih]

theorem getF_setField_ne (o : Obj) (k v k') (h : (k == k') = false) :
    getF (setField o k v) k' = getF o k' := by
  induction o with
  | nil => simp [setField, getF, h]
  | cons p rest ih =>
    by_cases hp : p.1 == k
    · have hpk : p.1 = k := by simpa using hp
      simp [setField, getF, hp, hpk, h, ih]
    · by_cases hp' : p.1 == k'
      · simp [setField, getF, hp, hp']
      · simp [setField, getF, hp, hp', ih]

theorem hasF_cons (p : String × JVal) (rest : Obj) (k : String) :
    hasF (p :: rest) k = (p.1 == k || hasF rest k) := by
  simp [hasF]

theorem hasF_setField (o : Obj) (k : String) (v : JVal) (k' : String) :
    hasF (setField o k v) k' = (hasF o k' || (k == k')) := by
  induction o with
  | nil =>
    simp [setField, hasF]
  | cons p rest ih =>
    obtain ⟨a, b⟩ := p
    by_cases hp : (a == k) = true
    · have hpk : a = k := by simpa using hp
      subst hpk
      simp only [setField, hp, if_pos, hasF_cons]
      cases h1 : (a == k') <;> cases h2 : hasF rest k' <;> simp [h1, h2]
    · have hp' : (a == k) = false := by simpa using hp
      cases h1 : (a == k') <;> cases h2 : hasF rest k' <;> cases h3 : (k == k') <;>
        simp [setField, hp', hasF_cons, ih, h1, h2, h3]

theorem keys_setField_mem (o : Obj) (k v) (h : hasF o k = true) :
    (setField o k v).map Prod.fst = o.map Prod.fst := by
  induction o with
  | nil => simp [hasF] at h
  | cons p rest ih =>
    by_cases hp : p.1 == k
    · simp [setField, hp]
    · simp [hasF, List.any_eq] at h
      rcases h with h | h
    
      · exact absurd (by simpa using h) (by simpa using hp)
      · have : hasF rest k = true := by
          simp [hasF, List.any_eq]
          exact h
        simp [setField, hp, ih this]

theorem keys_setField_not_mem (o : Obj) (k v) (h : hasF o k = false) :
    (setField o k v).map Prod.fst = o.map Prod.fst ++ [k] := by
  induction o with
  | nil => simp [setField]
  | cons p rest ih =>
    simp [hasF, List.any_eq] at h
    push_neg at h
    have hp : (p.1 == k) = false := by
      simp
      exact fun e => h.1 (by simp [e])
    have hr : hasF rest k = false := by
      simp [hasF, List.any_eq]
      intro x hx
      exact h.2 x hx
    simp [setField, hp, ih hr]

theorem getF_jsonifyFields (o : Obj) (k : String)
    (h : jsonify (getF o k) ≠ JVal.undef) :
    getF (jsonifyFields o) k = jsonify (getF o k) := by
  induction o with
  | nil => simp [getF, jsonify] at h
  | cons p rest ih =>
    obtain ⟨a, b⟩ := p
    by_cases hp : (a == k) = true
    · have hb : jsonify b ≠ JVal.undef := by
        simpa [getF, hp] using h
      rcases hjb : jsonify b with _ | _ | _ | _ | _ | _ | _ | _
      · exact absurd hjb hb
      all_goals simp [getF, hp, jsonifyFields, hjb]
    · have hp' : (a == k) = false := by simpa using hp
      have hr : jsonify (getF rest k) ≠ JVal.undef := by
        simpa [getF, hp'] using h
      rcases hjb : jsonify b with _ | _ | _ | _ | _ | _ | _ | _
      all_goals simp [getF, hp', jsonifyFields, hjb, ih hr]

theorem promiseAll_map_ok {α β : Type} (l : List α) (f : α → β) :
    promiseAll (l.map (fun a => (Except.ok (f a) : Except JsError β))) =
      Except.ok (l.map f) := by
  induction l with
  | nil => rfl
  | cons a as ih =>
    show (Except.ok (f a)).bind
        (fun x => (promiseAll (as.map (fun a => (Except.ok (f a) : Except JsError β)))).bind
          (fun rest => Except.ok (x :: rest))) = Except.ok (f a :: as.map f)
    rw [ih]
    rfl

theorem tryHandle_eq (h : EventRegistry.EHandler) (e : Obj) :
    EventRegistry.tryHandle h e =
      Except.ok (EventRegistry.settledResult (h e)) := by
  unfold EventRegistry.tryHandle EventRegistry.settledResult
  cases h e <;> rfl

/-- The dual-channel publish composition satisfies its contract for any
topic, channel and event. -/
theorem dualPublish_spec (topic channel : String) (ev : Obj) :
    DualPublishSpec (fun kOk rOk w =>
      let r1 := EventBus.publishEvent kOk w topic ev
      let r2 := EventBus.publishRealTimeEvent rOk r1.2 channel ev
      (promiseAll2 r1.1 r2.1, r2.2)) topic channel ev := by
  intro kOk rOk w
  cases kOk <;> cases rOk <;>
    simp [EventBus.publishEvent, EventBus.publishRealTimeEvent, promiseAll2]

/-- C3: EventRegistry.dispatch invokes every handler registered for the
event's type (none when the type has no registrations), returns the settled
outcome of each of them in registration order, and never rejects: a
handler's failure is caught (and logged) individually, so sibling handlers
still run and no error reaches the caller of dispatch. -/
theorem c3_dispatch_fault_isolation (reg : EventRegistry.Registry) (e : Obj) :
    EventRegistry.dispatch reg e =
      Except.ok ((EventRegistry.handlersOf reg e).map
        (fun h => EventRegistry.settledResult (h e))) := by
  unfold EventRegistry.dispatch
  have hmap : (EventRegistry.handlersOf reg e).map
        (fun h => EventRegistry.tryHandle h e) =
      (EventRegistry.handlersOf reg e).map
        (fun h => Except.ok (EventRegistry.settledResult (h e))) := by
    simp only [tryHandle_eq]
  rw [hmap]
  exact promiseAll_map_ok _ _

/-- C7: healthCheckAll returns one boolean per backend plus an overall
field equal to the conjunction of the three, preserving each individual
boolean; a backend whose probe throws contributes `false` for that backend
instead of making healthCheckAll throw (each probe catches its own
failure, and the aggregate is a total function of the probe outcomes).
Concretely, probes `{db: ok, redis: throws, kafka: ok}` yield
`{database := true, redis := false, kafka := true, overall := false}`. -/
theorem c7_health_aggregation :
    ∀ env : HealthEnv,
    ConnectionModel.healthCheckAll env =
      { database := ConnectionModel.databaseHealthCheck env,
        redis := ConnectionModel.redisHealthCheck env,
        kafka := ConnectionModel.kafkaHealthCheck env,
        overall := ConnectionModel.databaseHealthCheck env &&
          ConnectionModel.redisHealthCheck env &&
          ConnectionModel.kafkaHealthCheck env } ∧
    ConnectionModel.databaseHealthCheck env = exceptOk env.dbQuery ∧
    ConnectionModel.kafkaHealthCheck env =
      (exceptOk env.adminConnect && exceptOk env.listTopics &&
        exceptOk env.adminDisconnect) ∧
    ConnectionModel.healthCheckAll probeHealthEnv =
      { database := true, redis := false, kafka := true, overall := false } := by
  intro env
  refine ⟨rfl, ?_, ?_, rfl⟩
  · cases hd : env.dbQuery <;>
      simp [ConnectionModel.databaseHealthCheck, exceptOk, hd]
  · cases h1 : env.adminConnect <;> cases h2 : env.listTopics <;>
      cases h3 : env.adminDisconnect <;>
      simp [ConnectionModel.kafkaHealthCheck, exceptOk, h1, h2, h3]

/-- C2: every domain-specific publish helper builds one typed event and
writes it to both the durable topic and the real-time channel, and the
overall call rejects whenever either channel write fails — in particular
(last conjunct) when the durable record was already written and only the
broadcast failed, the durable record stays written and the call still
rejects. -/
theorem c2_dual_publish_coupling (idNow : Nat) (rand : String) (tsNow : Int)
    (userId orderId paymentId productId vendorId : String) (dat : JVal) :
    DualPublishSpec (fun a b w => EventBus.publishUserCreated a b w idNow rand tsNow userId dat)
      "user-events" "user:created" (EventBus.userCreatedEvent idNow rand tsNow userId dat) ∧
    DualPublishSpec (fun a b w => EventBus.publishUserUpdated a b w idNow rand tsNow userId dat)
      "user-events" "user:updated" (EventBus.userUpdatedEvent idNow rand tsNow userId dat) ∧
    DualPublishSpec (fun a b w => EventBus.publishUserDeleted a b w idNow rand tsNow userId)
      "user-events" "user:deleted" (EventBus.userDeletedEvent idNow rand tsNow userId) ∧
    DualPublishSpec (fun a b w => EventBus.publishOrderCreated a b w idNow rand tsNow orderId userId dat)
      "order-events" "order:created" (EventBus.orderCreatedEvent idNow rand tsNow orderId userId dat) ∧
    DualPublishSpec (fun a b w => EventBus.publishOrderUpdated a b w idNow rand tsNow orderId userId dat)
      "order-events" "order:updated" (EventBus.orderUpdatedEvent idNow rand tsNow orderId userId dat) ∧
    DualPublishSpec (fun a b w => EventBus.publishOrderCancelled a b w idNow rand tsNow orderId userId dat)
      "order-events" "order:cancelled" (EventBus.orderCancelledEvent idNow rand tsNow orderId userId dat) ∧
    DualPublishSpec (fun a b w => EventBus.publishPaymentProcessed a b w idNow rand tsNow paymentId orderId userId dat)
      "payment-events" "payment:processed" (EventBus.paymentProcessedEvent idNow rand tsNow paymentId orderId userId dat) ∧
    DualPublishSpec (fun a b w => EventBus.publishPaymentFailed a b w idNow rand tsNow paymentId orderId userId dat)
      "payment-events" "payment:failed" (EventBus.paymentFailedEvent idNow rand tsNow paymentId orderId userId dat) ∧
    DualPublishSpec (fun a b w => EventBus.publishProductCreated a b w idNow rand tsNow productId vendorId dat)
      "product-events" "product:created" (EventBus.productCreatedEvent idNow rand tsNow productId vendorId dat) ∧
    DualPublishSpec (fun a b w => EventBus.publishProductUpdated a b w idNow rand tsNow productId vendorId dat)
      "product-events" "product:updated" (EventBus.productUpdatedEvent idNow rand tsNow productId vendorId dat) ∧
    DualPublishSpec (fun a b w => EventBus.publishInventoryUpdated a b w idNow rand tsNow productId vendorId dat)
      "product-events" "inventory:updated" (EventBus.inventoryUpdatedEvent idNow rand tsNow productId vendorId dat) ∧
    ∀ w : World,
      (EventBus.publishOrderCreated true false w idNow rand tsNow orderId userId dat).1 =
        Except.error { message := "redis publish failed", stack := JVal.undef } ∧
      (EventBus.publishOrderCreated true false w idNow rand tsNow orderId userId dat).2.kafka =
        w.kafka ++ [("order-events",
          EventBus.mkKafkaRecord (EventBus.orderCreatedEvent idNow rand tsNow orderId userId dat))] := by
  refine ⟨dualPublish_spec _ _ _, dualPublish_spec _ _ _, dualPublish_spec _ _ _,
    dualPublish_spec _ _ _, dualPublish_spec _ _ _, dualPublish_spec _ _ _,
    dualPublish_spec _ _ _, dualPublish_spec _ _ _, dualPublish_spec _ _ _,
    dualPublish_spec _ _ _, dualPublish_spec _ _ _, ?_⟩
  intro w
  constructor <;>
    simp [EventBus.publishOrderCreated, EventBus.publishEvent,
      EventBus.publishRealTimeEvent, promiseAll2]

/-- C6: every replayEvents invocation subscribes an ephemeral consumer
whose group id has the time-stamped form `replay-` followed by the
millisecond clock value; however the subscription does not set
`fromBeginning` (kafkajs defaults it to `false`), so the replay consumer
does not start from the earliest available offset, and two invocations in
the same millisecond share the same group id. -/
theorem c6_replay_subscription :
    ∀ (topic : String) (nowMs : Nat),
    (EventBus.replaySubscription topic nowMs).fromBeginning = false ∧
    (EventBus.replaySubscription topic nowMs).topics = [topic] ∧
    (EventBus.replaySubscription topic nowMs).groupId = "replay-" ++ natRepr nowMs ∧
    (EventBus.replaySubscription "topic-a" 5).groupId =
      (EventBus.replaySubscription "topic-b" 5).groupId := by
  intro topic nowMs
  exact ⟨rfl, rfl, rfl, rfl⟩

/-- C5: publishEvent appends to the topic exactly one record whose key is
`e.id`, whose value is the JSON serialization of `e` (so the consumer-side
parse yields the same `id`, `type`, `source` and `version` string fields),
and whose headers are exactly `{eventType, source, version}` as string
key-value pairs; nothing is written to the real-time channel. -/
theorem c5_publish_event_wire_shape (w : World) (topic : String) (e : Obj)
    (i t src ver : String)
    (hi : getF e "id" = JVal.str i) (ht : getF e "type" = JVal.str t)
    (hs : getF e "source" = JVal.str src) (hv : getF e "version" = JVal.str ver) :
    (EventBus.publishEvent true w topic e).1 = Except.ok () ∧
    (EventBus.publishEvent true w topic e).2.kafka =
      w.kafka ++ [(topic, EventBus.mkKafkaRecord e)] ∧
    (EventBus.publishEvent true w topic e).2.redis = w.redis ∧
    (EventBus.mkKafkaRecord e).key = JVal.str i ∧
    (EventBus.mkKafkaRecord e).value = jsonify (JVal.obj e) ∧
    (EventBus.mkKafkaRecord e).headers =
      [("eventType", JVal.str t), ("source", JVal.str src),
       ("version", JVal.str ver)] ∧
    EventBus.jsGet (EventBus.mkKafkaRecord e).value "id" = JVal.str i ∧
    EventBus.jsGet (EventBus.mkKafkaRecord e).value "type" = JVal.str t ∧
    EventBus.jsGet (EventBus.mkKafkaRecord e).value "source" = JVal.str src ∧
    EventBus.jsGet (EventBus.mkKafkaRecord e).value "version" = JVal.str ver := by
  have hfield : ∀ (k : String) (x : String), getF e k = JVal.str x →
      EventBus.jsGet (EventBus.mkKafkaRecord e).value k = JVal.str x := by
    intro k x hk
    have hne : jsonify (getF e k) ≠ JVal.undef := by
      rw [hk]; simp [jsonify]
    have := getF_jsonifyFields e k hne
    rw [hk] at this
    simp only [EventBus.mkKafkaRecord, EventBus.jsGet, jsonify]
    rw [this]
    rfl
  refine ⟨rfl, rfl, rfl, ?_, rfl, ?_, hfield _ _ hi, hfield _ _ ht,
    hfield _ _ hs, hfield _ _ hv⟩
  · simp [EventBus.mkKafkaRecord, hi]
  · simp [EventBus.mkKafkaRecord, ht, hs, hv]

/-- Witness for C5 at a concrete event: the record key is the event id. -/
theorem c5_publish_event_wire_shape_witness :
    (EventBus.mkKafkaRecord (probeEventAt 0 "e2")).key = JVal.str "e2" ∧
    EventBus.jsGet (EventBus.mkKafkaRecord (probeEventAt 0 "e2")).value "type" =
      JVal.str "ORDER_CREATED" :=
  ⟨(c5_publish_event_wire_shape ⟨[], []⟩ "order-events" (probeEventAt 0 "e2")
      "e2" "ORDER_CREATED" "order-service" "1.0" rfl rfl rfl rfl).2.2.2.1,
   (c5_publish_event_wire_shape ⟨[], []⟩ "order-events" (probeEventAt 0 "e2")
      "e2" "ORDER_CREATED" "order-service" "1.0" rfl rfl rfl rfl).2.2.2.2.2.2.2.1⟩

/-- C1 (amended): handleDeadLetterEvent publishes exactly one record to the
fixed topic `dead-letter-events`, whose type is the failed event's type
followed by "_DEAD_LETTER", whose originalEventId is the failed event's id,
whose id is the freshly generated id — distinct from the failed event's id
whenever the generator's draw differs from it, which the generator alone
does not guarantee — and whose error field carries the error's message and
stack. -/
theorem c1_dead_letter_shape (w : World) (e : Obj) (err : JsError)
    (idNow : Nat) (rand : String) (tsNow : Int) (t i : String)
    (ht : getF e "type" = JVal.str t) (hi : getF e "id" = JVal.str i)
    (hfresh : EventBus.generateEventId idNow rand ≠ i) :
    (EventBus.handleDeadLetterEvent true w e err idNow rand tsNow).1 = Except.ok () ∧
    (EventBus.handleDeadLetterEvent true w e err idNow rand tsNow).2.kafka =
      w.kafka ++ [("dead-letter-events",
        EventBus.mkKafkaRecord (EventBus.deadLetterEventOf e err idNow rand tsNow))] ∧
    (EventBus.handleDeadLetterEvent true w e err idNow rand tsNow).2.redis = w.redis ∧
    getF (EventBus.deadLetterEventOf e err idNow rand tsNow) "type" =
      JVal.str (t ++ "_DEAD_LETTER") ∧
    getF (EventBus.deadLetterEventOf e err idNow rand tsNow) "originalEventId" =
      JVal.str i ∧
    getF (EventBus.deadLetterEventOf e err idNow rand tsNow) "id" =
      JVal.str (EventBus.generateEventId idNow rand) ∧
    getF (EventBus.deadLetterEventOf e err idNow rand tsNow) "id" ≠ JVal.str i ∧
    getF (EventBus.deadLetterEventOf e err idNow rand tsNow) "error" =
      JVal.obj [("message", JVal.str err.message), ("stack", err.stack)] ∧
    EventBus.jsGet (EventBus.mkKafkaRecord
      (EventBus.deadLetterEventOf e err idNow rand tsNow)).value "type" =
      JVal.str (t ++ "_DEAD_LETTER") ∧
    EventBus.jsGet (EventBus.mkKafkaRecord
      (EventBus.deadLetterEventOf e err idNow rand tsNow)).value "originalEventId" =
      JVal.str i := by
  have htype : getF (EventBus.deadLetterEventOf e err idNow rand tsNow) "type" =
      JVal.str (t ++ "_DEAD_LETTER") := by
    unfold EventBus.deadLetterEventOf
    rw [getF_setField_ne _ _ _ _ (by decide), getF_setField_ne _ _ _ _ (by decide),
      getF_setField_ne _ _ _ _ (by decide), getF_setField_self, ht]
    simp [jsToStr]
  have horig : getF (EventBus.deadLetterEventOf e err idNow rand tsNow)
      "originalEventId" = JVal.str i := by
    unfold EventBus.deadLetterEventOf
    rw [getF_setField_ne _ _ _ _ (by decide), getF_setField_self, hi]
  have hid : getF (EventBus.deadLetterEventOf e err idNow rand tsNow) "id" =
      JVal.str (EventBus.generateEventId idNow rand) := by
    unfold EventBus.deadLetterEventOf
    rw [getF_setField_ne _ _ _ _ (by decide), getF_setField_ne _ _ _ _ (by decide),
      getF_setField_ne _ _ _ _ (by decide), getF_setField_ne _ _ _ _ (by decide),
      getF_setField_self]
  have herror : getF (EventBus.deadLetterEventOf e err idNow rand tsNow) "error" =
      JVal.obj [("message", JVal.str err.message), ("stack", err.stack)] := by
    unfold EventBus.deadLetterEventOf
    rw [getF_setField_self]
  have hser : ∀ (k : String) (x : String),
      getF (EventBus.deadLetterEventOf e err idNow rand tsNow) k = JVal.str x →
      EventBus.jsGet (EventBus.mkKafkaRecord
        (EventBus.deadLetterEventOf e err idNow rand tsNow)).value k = JVal.str x := by
    intro k x hk
    have hne : jsonify (getF (EventBus.deadLetterEventOf e err idNow rand tsNow) k) ≠
        JVal.undef := by
      rw [hk]; simp [jsonify]
    have hj := getF_jsonifyFields (EventBus.deadLetterEventOf e err idNow rand tsNow) k hne
    rw [hk] at hj
    simp only [EventBus.mkKafkaRecord, EventBus.jsGet, jsonify]
    rw [hj]
    rfl
  refine ⟨rfl, rfl, rfl, htype, horig, hid, ?_, herror,
    hser _ _ htype, hser _ _ horig⟩
  rw [hid]
  intro hcontr
  exact hfresh (JVal.str.inj hcontr)

/-- Counterexample to C1 as stated: when the failed event's id coincides
with the generator's draw (clock 5 ms, suffix "abc"), the dead-letter
record's id equals the original event's id, so "a newly generated id
distinct from E.id" does not hold unconditionally. -/
theorem c1_counterexample :
    EventBus.generateEventId 5 "abc" = "5-abc" ∧
    getF probeEventSameId "id" = JVal.str "5-abc" ∧
    (EventBus.handleDeadLetterEvent true ⟨[], []⟩ probeEventSameId jsErrBoom
      5 "abc" 6).2.kafka =
      [("dead-letter-events", EventBus.mkKafkaRecord
        (EventBus.deadLetterEventOf probeEventSameId jsErrBoom 5 "abc" 6))] ∧
    getF (EventBus.deadLetterEventOf probeEventSameId jsErrBoom 5 "abc" 6) "id" =
      getF probeEventSameId "id" := by
  have hgen : EventBus.generateEventId 5 "abc" = "5-abc" := by
    simp [EventBus.generateEventId, natRepr, natDigits]
    rfl
  refine ⟨hgen, rfl, rfl, ?_⟩
  simp [EventBus.deadLetterEventOf, probeEventSameId, setField, getF, hgen]

/-- Witness for C1 (amended) at a concrete input. -/
theorem c1_dead_letter_shape_witness :
    getF (EventBus.deadLetterEventOf (probeEventAt 0 "e9") jsErrBoom 1 "abc" 6)
      "type" = JVal.str "ORDER_CREATED_DEAD_LETTER" ∧
    getF (EventBus.deadLetterEventOf (probeEventAt 0 "e9") jsErrBoom 1 "abc" 6)
      "id" ≠ JVal.str "e9" :=
  ⟨(c1_dead_letter_shape ⟨[], []⟩ (probeEventAt 0 "e9") jsErrBoom 1 "abc" 6
      "ORDER_CREATED" "e9" rfl rfl
      (by simp [EventBus.generateEventId, natRepr, natDigits]; decide)).2.2.2.1,
   (c1_dead_letter_shape ⟨[], []⟩ (probeEventAt 0 "e9") jsErrBoom 1 "abc" 6
      "ORDER_CREATED" "e9" rfl rfl
      (by simp [EventBus.generateEventId, natRepr, natDigits]; decide)).2.2.2.2.2.2.1⟩

/-- C10 (amended): the dead-letter record preserves every field of the
failed event other than `id`, `type`, `timestamp`, `originalEventId` and
`error` — the last two are overwritten when already present, not preserved —
while `timestamp` is replaced by the dead-letter creation time,
`originalEventId` is set to the failed event's id, `error` to the error
snapshot, and for an event carrying `id`, `type` and `timestamp` but
neither `originalEventId` nor `error`, exactly those two fields are
appended. -/
theorem c10_dead_letter_frame (e : Obj) (err : JsError) (idNow : Nat)
    (rand : String) (tsNow : Int) :
    (∀ k : String, k ≠ "id" → k ≠ "type" → k ≠ "timestamp" →
      k ≠ "originalEventId" → k ≠ "error" →
      getF (EventBus.deadLetterEventOf e err idNow rand tsNow) k = getF e k) ∧
    getF (EventBus.deadLetterEventOf e err idNow rand tsNow) "timestamp" =
      JVal.date tsNow ∧
    getF (EventBus.deadLetterEventOf e err idNow rand tsNow) "originalEventId" =
      getF e "id" ∧
    getF (EventBus.deadLetterEventOf e err idNow rand tsNow) "error" =
      JVal.obj [("message", JVal.str err.message), ("stack", err.stack)] ∧
    (hasF e "id" = true → hasF e "type" = true → hasF e "timestamp" = true →
      hasF e "originalEventId" = false → hasF e "error" = false →
      (EventBus.deadLetterEventOf e err idNow rand tsNow).map Prod.fst =
        e.map Prod.fst ++ ["originalEventId", "error"]) := by
  refine ⟨?_, ?_, ?_, ?_, ?_⟩
  · intro k h1 h2 h3 h4 h5
    unfold EventBus.deadLetterEventOf
    rw [getF_setField_ne _ _ _ _ (by rw [beq_eq_false_iff_ne]; exact Ne.symm h5),
      getF_setField_ne _ _ _ _ (by rw [beq_eq_false_iff_ne]; exact Ne.symm h4),
      getF_setField_ne _ _ _ _ (by rw [beq_eq_false_iff_ne]; exact Ne.symm h3),
      getF_setField_ne _ _ _ _ (by rw [beq_eq_false_iff_ne]; exact Ne.symm h2),
      getF_setField_ne _ _ _ _ (by rw [beq_eq_false_iff_ne]; exact Ne.symm h1)]
  · unfold EventBus.deadLetterEventOf
    rw [getF_setField_ne _ _ _ _ (by decide), getF_setField_ne _ _ _ _ (by decide),
      getF_setField_self]
  · unfold EventBus.deadLetterEventOf
    rw [getF_setField_ne _ _ _ _ (by decide), getF_setField_self]
  · unfold EventBus.deadLetterEventOf
    rw [getF_setField_self]
  · intro h1 h2 h3 h4 h5
    unfold EventBus.deadLetterEventOf
    have hB : hasF (setField e "id"
        (JVal.str (EventBus.generateEventId idNow rand))) "type" = true := by
      rw [hasF_setField, h2]; rfl
    have hC : hasF (setField (setField e "id"
        (JVal.str (EventBus.generateEventId idNow rand)))
        "type" (JVal.str (jsToStr (getF e "type") ++ "_DEAD_LETTER")))
        "timestamp" = true := by
      rw [hasF_setField, hasF_setField, h3]; rfl
    have hD : hasF (setField (setField (setField e "id"
        (JVal.str (EventBus.generateEventId idNow rand)))
        "type" (JVal.str (jsToStr (getF e "type") ++ "_DEAD_LETTER")))
        "timestamp" (JVal.date tsNow)) "originalEventId" = false := by
      rw [hasF_setField, hasF_setField, hasF_setField, h4]; decide
    have hE : hasF (setField (setField (setField (setField e "id"
        (JVal.str (EventBus.generateEventId idNow rand)))
        "type" (JVal.str (jsToStr (getF e "type") ++ "_DEAD_LETTER")))
        "timestamp" (JVal.date tsNow)) "originalEventId" (getF e "id"))
        "error" = false := by
      rw [hasF_setField, hasF_setField, hasF_setField, hasF_setField, h5]; decide
    rw [keys_setField_not_mem _ _ _ hE, keys_setField_not_mem _ _ _ hD,
      keys_setField_mem _ _ _ hC, keys_setField_mem _ _ _ hB,
      keys_setField_mem _ _ _ h1, List.append_assoc]
    rfl

/-- Counterexample to C10 as stated: dead-lettering an event that already
carries an `originalEventId` field (a dead-letter record being
dead-lettered again) overwrites that field — a field other than `id`,
`type` and `timestamp` that is not preserved. -/
theorem c10_counterexample :
    getF probeEventRedead "originalEventId" = JVal.str "e1" ∧
    getF (EventBus.deadLetterEventOf probeEventRedead jsErrBoom 7 "zzz" 8)
      "originalEventId" = JVal.str "e2" ∧
    (("originalEventId" : String) ≠ "id" ∧ ("originalEventId" : String) ≠ "type" ∧
      ("originalEventId" : String) ≠ "timestamp") ∧
    getF (EventBus.deadLetterEventOf probeEventRedead jsErrBoom 7 "zzz" 8)
      "originalEventId" ≠ getF probeEventRedead "originalEventId" := by
  have h2 : getF (EventBus.deadLetterEventOf probeEventRedead jsErrBoom 7 "zzz" 8)
      "originalEventId" = JVal.str "e2" := by
    unfold EventBus.deadLetterEventOf
    rw [getF_setField_ne _ _ _ _ (by decide), getF_setField_self]
    rfl
  refine ⟨rfl, h2, by decide, ?_⟩
  rw [h2]
  intro hcontr
  simp [probeEventRedead, getF] at hcontr

/-- Witness for C10 (amended) at a concrete input. -/
theorem c10_dead_letter_frame_witness :
    getF (EventBus.deadLetterEventOf (probeEventAt 0 "e7") jsErrBoom 1 "abc" 6)
      "source" = JVal.str "order-service" ∧
    (EventBus.deadLetterEventOf (probeEventAt 0 "e7") jsErrBoom 1 "abc" 6).map
      Prod.fst =
      ["id", "type", "timestamp", "source", "version", "originalEventId", "error"] := by
  constructor
  · have := (c10_dead_letter_frame (probeEventAt 0 "e7") jsErrBoom 1 "abc" 6).1
      "source" (by decide) (by decide) (by decide) (by decide) (by decide)
    rw [this]
    rfl
  · have := (c10_dead_letter_frame (probeEventAt 0 "e7") jsErrBoom 1 "abc" 6).2.2.2.2
      rfl rfl rfl rfl rfl
    rw [this]
    rfl

theorem kafka_inv_step (s : KafkaConnection.KState)
    (h : s.producerCreations = (if s.producer.isSome then 1 else 0))
    (c : KafkaConnection.KCall) :
    (KafkaConnection.step s c).producerCreations =
      (if (KafkaConnection.step s c).producer.isSome then 1 else 0) := by
  cases c with
  | getProducer =>
    cases hp : s.producer <;>
      simp_all [KafkaConnection.step, KafkaConnection.getProducer]
  | getConsumer g =>
    cases hf : s.consumers.find? (fun q => q.1 == g) <;>
      simp only [KafkaConnection.step, KafkaConnection.getConsumer, hf] <;>
      exact h
  | connect =>
    cases hc : s.isConnected
    · cases hp : s.producer <;>
        simp_all [KafkaConnection.step, KafkaConnection.connect,
          KafkaConnection.getProducer]
    · simp_all [KafkaConnection.step, KafkaConnection.connect]
  | disconnect =>
    cases hc : s.isConnected <;>
      simp_all [KafkaConnection.step, KafkaConnection.disconnect]

theorem kafka_inv_foldl (calls : List KafkaConnection.KCall) :
    ∀ s : KafkaConnection.KState,
    s.producerCreations = (if s.producer.isSome then 1 else 0) →
    (calls.foldl KafkaConnection.step s).producerCreations =
      (if (calls.foldl KafkaConnection.step s).producer.isSome then 1 else 0) := by
  induction calls with
  | nil => intro s h; simpa using h
  | cons c rest ih =>
    intro s h
    exact ih (KafkaConnection.step s c) (kafka_inv_step s h c)

/-- C9 (amended): the producer is a true process-wide singleton — over any
call sequence at most one producer instance is ever created, and
getProducer returns the cached instance unchanged once one exists;
getConsumer returns the cached consumer unchanged while its group id is in
the cache; but disconnect (when connected) clears the consumer cache while
leaving the producer cached, so a later getConsumer call for an
already-seen group id constructs a second physical consumer. -/
theorem c9_singleton_amended :
    (∀ calls : List KafkaConnection.KCall,
      (KafkaConnection.run calls).producerCreations ≤ 1) ∧
    (∀ (s : KafkaConnection.KState) (p : Nat), s.producer = some p →
      KafkaConnection.getProducer s = (p, s)) ∧
    (∀ (s : KafkaConnection.KState) (g : String) (pr : String × Nat),
      s.consumers.find? (fun q => q.1 == g) = some pr →
      KafkaConnection.getConsumer s g = (pr.2, s)) ∧
    (∀ s : KafkaConnection.KState, s.isConnected = true →
      (KafkaConnection.disconnect s).consumers = [] ∧
      (KafkaConnection.disconnect s).producer = s.producer ∧
      (KafkaConnection.disconnect s).producerCreations = s.producerCreations ∧
      (KafkaConnection.disconnect s).consumerCreations = s.consumerCreations) := by
  refine ⟨?_, ?_, ?_, ?_⟩
  · intro calls
    have h := kafka_inv_foldl calls KafkaConnection.initState rfl
    unfold KafkaConnection.run
    rw [h]
    split <;> omega
  · intro s p hp
    unfold KafkaConnection.getProducer
    rw [hp]
  · intro s g pr hf
    unfold KafkaConnection.getConsumer
    rw [hf]
  · intro s hs
    unfold KafkaConnection.disconnect
    rw [hs]
    exact ⟨rfl, rfl, rfl, rfl⟩

/-- Counterexample to C9 as stated: the sequence connect; getConsumer "g";
disconnect; getConsumer "g" constructs two physical consumer instances for
the same group id, because disconnect cleared the consumer cache. -/
theorem c9_counterexample :
    (KafkaConnection.run probeKafkaCalls).consumerCreations = ["g", "g"] ∧
    ¬ ((KafkaConnection.run probeKafkaCalls).consumerCreations.count "g" ≤ 1) := by
  constructor <;> decide

/-- Witness for C9 (amended) at concrete inputs. -/
theorem c9_singleton_amended_witness :
    (KafkaConnection.run probeKafkaCalls).producerCreations ≤ 1 ∧
    KafkaConnection.getProducer
      { KafkaConnection.initState with
          producer := some 0, nextId := 1, producerCreations := 1 } =
      (0, { KafkaConnection.initState with
          producer := some 0, nextId := 1, producerCreations := 1 }) :=
  ⟨c9_singleton_amended.1 probeKafkaCalls,
   c9_singleton_amended.2.1 _ 0 rfl⟩

theorem str_data_append (a b : String) : (a ++ b).data = a.data ++ b.data := by
  cases a
  cases b
  rfl

theorem natDigits_unfold (n : Nat) :
    natDigits n = if _h : n < 10 then [Nat.digitChar n]
      else natDigits (n / 10) ++ [Nat.digitChar (n % 10)] := by
  rw [natDigits]

theorem digitChar_isDigit :
    ∀ m : Nat, m < 10 → (digitVal? (Nat.digitChar m)).isSome = true := by
  decide

theorem digitChar_inj :
    ∀ a : Nat, a < 10 → ∀ b : Nat, b < 10 →
      Nat.digitChar a = Nat.digitChar b → a = b := by
  decide

theorem natDigits_digits (n : Nat) :
    ∀ c ∈ natDigits n, (digitVal? c).isSome = true := by
  induction n using Nat.strong_induction_on with
  | _ n ih =>
    rw [natDigits_unfold]
    by_cases h : n < 10
    · intro c hc
      simp [h] at hc
      subst hc
      exact digitChar_isDigit n h
    · intro c hc
      simp [h] at hc
      rcases hc with hc | hc
      · exact ih (n / 10) (Nat.div_lt_self (by omega) (by omega)) c hc
      · subst hc
        exact digitChar_isDigit (n % 10) (Nat.mod_lt n (by omega))

theorem isDigit_ne (c : Char) (h : (digitVal? c).isSome = true) :
    c ≠ '-' ∧ c ≠ '+' := by
  rw [digitVal?] at h
  split at h
  · next hc =>
    constructor
    · intro e; subst e; exact absurd hc (by decide)
    · intro e; subst e; exact absurd hc (by decide)
  · simp at h

theorem natDigits_ne_nil (n : Nat) : natDigits n ≠ [] := by
  rw [natDigits_unfold]
  by_cases h : n < 10 <;> simp [h]

theorem natDigits_no_dash (n : Nat) : ('-') ∉ natDigits n := by
  intro hc
  have h := natDigits_digits n _ hc
  exact absurd h (by decide)

theorem natDigits_inj (m : Nat) : ∀ n : Nat, natDigits m = natDigits n → m = n := by
  induction m using Nat.strong_induction_on with
  | _ m ih =>
    intro n h
    by_cases hm : m < 10 <;> by_cases hn : n < 10
    · rw [natDigits_unfold m, natDigits_unfold n] at h
      simp [hm, hn] at h
      exact digitChar_inj m hm n hn h
    · rw [natDigits_unfold m, natDigits_unfold n] at h
      simp [hm, hn] at h
      have hlen := congrArg List.length h
      simp at hlen
      have := natDigits_ne_nil (n / 10)
      cases hd : natDigits (n / 10) with
      | nil => exact absurd hd this
      | cons a as => rw [hd] at hlen; simp at hlen
    · rw [natDigits_unfold m, natDigits_unfold n] at h
      simp [hm, hn] at h
      have hlen := congrArg List.length h
      simp at hlen
      have := natDigits_ne_nil (m / 10)
      cases hd : natDigits (m / 10) with
      | nil => exact absurd hd this
      | cons a as => rw [hd] at hlen; simp at hlen
    · rw [natDigits_unfold m, natDigits_unfold n] at h
      simp [hm, hn] at h
      have hsplit := List.append_inj' h (by rfl)
      have h1 : m / 10 = n / 10 :=
        ih (m / 10) (Nat.div_lt_self (by omega) (by omega)) (n / 10) hsplit.1
      have h2 : m % 10 = n % 10 := by
        have := hsplit.2
        simp at this
        exact digitChar_inj (m % 10) (Nat.mod_lt m (by omega)) (n % 10)
          (Nat.mod_lt n (by omega)) this
      omega

theorem dash_split (as : List Char) :
    ∀ (as' bs bs' : List Char), ('-') ∉ as → ('-') ∉ as' →
    as ++ ('-') :: bs = as' ++ ('-') :: bs' → as = as' ∧ bs = bs' := by
  induction as with
  | nil =>
    intro as' bs bs' _ h2 h
    cases as' with
    | nil => simpa using h
    | cons a rest =>
      simp at h
      exact absurd (h.1.symm ▸ List.mem_cons_self a rest) h2
  | cons a rest ih =>
    intro as' bs bs' h1 h2 h
    cases as' with
    | nil =>
      simp at h
      exact absurd (h.1 ▸ List.mem_cons_self a rest) h1
    | cons a' rest' =>
      simp at h
      obtain ⟨hsplit1, hsplit2⟩ :=
        ih rest' bs bs' (fun hx => h1 (List.mem_cons_of_mem a hx))
          (fun hx => h2 (List.mem_cons_of_mem a' hx)) h.2
      exact ⟨by rw [h.1, hsplit1], hsplit2⟩

theorem parseDigits_stuck (ds : List Char) :
    ∀ (rest : List Char) (acc : Option Nat),
    (∀ c ∈ ds, (digitVal? c).isSome = true) →
    parseDigits (ds ++ ('-') :: rest) acc = none := by
  induction ds with
  | nil =>
    intro rest acc _
    simp [parseDigits, digitVal?]
  | cons c cs ih =>
    intro rest acc hd
    have hc := hd c (List.mem_cons_self c cs)
    obtain ⟨d, hdv⟩ := Option.isSome_iff_exists.mp hc
    simp only [List.cons_append, parseDigits, hdv]
    exact ih rest _ (fun x hx => hd x (List.mem_cons_of_mem c hx))

theorem padTo_digits (w n : Nat) :
    ∀ c ∈ (padTo w n).data, (digitVal? c).isSome = true := by
  intro c hc
  simp only [padTo, natRepr] at hc
  split at hc
  · rw [str_data_append] at hc
    rcases List.mem_append.mp hc with hc | hc
    · have : c = '0' := by
        have := List.eq_of_mem_replicate (by simpa using hc)
        exact this
      subst this
      decide
    · exact natDigits_digits n c hc
  · exact natDigits_digits n c hc

theorem padTo_data_ne_nil (w n : Nat) : (padTo w n).data ≠ [] := by
  simp only [padTo, natRepr]
  split
  · rw [str_data_append]
    intro h
    rcases List.append_eq_nil.mp h with ⟨_, h2⟩
    exact natDigits_ne_nil n h2
  · exact natDigits_ne_nil n

theorem strToNum?_digits_prefix (s : String) (c : Char) (cs rest : List Char)
    (hs : s.data = c :: (cs ++ ('-') :: rest))
    (hc : (digitVal? c).isSome = true)
    (hcs : ∀ x ∈ cs, (digitVal? x).isSome = true) :
    strToNum? s = none := by
  obtain ⟨hne1, hne2⟩ := isDigit_ne c hc
  rw [strToNum?, hs]
  simp only [hne1, hne2, if_false]
  have : c :: (cs ++ ('-') :: rest) = (c :: cs) ++ ('-') :: rest := by simp
  rw [this, parseDigits_stuck (c :: cs) rest none ?_]
  · rfl
  · intro x hx
    rcases List.mem_cons.mp hx with hx | hx
    · subst hx; exact hc
    · exact hcs x hx

theorem strToNum?_year_prefix (y : Int) (s : String) :
    strToNum? (yearStr y ++ "-" ++ s) = none := by
  have hd : (yearStr y ++ "-" ++ s).data = (yearStr y).data ++ ('-') :: s.data := by
    rw [str_data_append, str_data_append, List.append_assoc]
    rfl
  by_cases h1 : 0 ≤ y ∧ y ≤ 9999
  · have hys : yearStr y = padTo 4 y.toNat := by rw [yearStr, if_pos h1]
    rw [hys] at hd ⊢
    cases hpd : (padTo 4 y.toNat).data with
    | nil => exact absurd hpd (padTo_data_ne_nil 4 y.toNat)
    | cons c cs =>
      rw [hpd] at hd
      refine strToNum?_digits_prefix _ c cs s.data (by rw [hd]; simp) ?_ ?_
      · exact padTo_digits 4 y.toNat c (hpd ▸ List.mem_cons_self c cs)
      · exact fun x hx => padTo_digits 4 y.toNat x (hpd ▸ List.mem_cons_of_mem c hx)
  · by_cases h2 : y < 0
    · have hys : yearStr y = "-" ++ padTo 6 (-y).toNat := by
        rw [yearStr, if_neg h1, if_pos h2]
      rw [hys] at hd ⊢
      have hd2 : (("-" ++ padTo 6 (-y).toNat) ++ "-" ++ s).data =
          ('-') :: ((padTo 6 (-y).toNat).data ++ ('-') :: s.data) := by
        rw [hd, str_data_append]
        rfl
      rw [strToNum?, hd2]
      simp only [if_pos]
      rw [parseDigits_stuck ((padTo 6 (-y).toNat).data) s.data none
        (padTo_digits 6 (-y).toNat)]
      rfl
    · have hys : yearStr y = "+" ++ padTo 6 y.toNat := by
        rw [yearStr, if_neg h1, if_neg h2]
      rw [hys] at hd ⊢
      have hd2 : (("+" ++ padTo 6 y.toNat) ++ "-" ++ s).data =
          ('+') :: ((padTo 6 y.toNat).data ++ ('-') :: s.data) := by
        rw [hd, str_data_append]
        rfl
      rw [strToNum?, hd2]
      have hp := parseDigits_stuck ((padTo 6 y.toNat).data) s.data none
        (padTo_digits 6 y.toNat)
      simp [hp]

theorem strToNum?_isoOf (ms : Int) : strToNum? (isoOf ms) = none := by
  unfold isoOf
  exact strToNum?_year_prefix _ _

theorem replayFilter_serialized (e : Obj) (t fromMs toMs : Int)
    (h : getF e "timestamp" = JVal.date t) :
    EventBus.replayFilter fromMs toMs (jsonify (JVal.obj e)) = false := by
  have hne : jsonify (getF e "timestamp") ≠ JVal.undef := by
    rw [h]; simp [jsonify]
  have hj := getF_jsonifyFields e "timestamp" hne
  rw [h] at hj
  have hts : getF (jsonifyFields e) "timestamp" = JVal.str (isoOf t) := by
    rw [hj]; simp [jsonify]
  have hobj : jsonify (JVal.obj e) = JVal.obj (jsonifyFields e) := by
    simp [jsonify]
  rw [EventBus.replayFilter, hobj, EventBus.jsGet, hts]
  have hlt : jsLt (JVal.str (isoOf t)) (JVal.date fromMs) = none := by
    simp [jsLt, toPrimitiveNum, toNumber?, strToNum?_isoOf]
  simp [jsGE, hlt]

/-- C4 (code bug): replayEvents never invokes the handler at all — on a
topic holding serialized events with timestamps -1, 0, 1 and 2 and the
window [0, 1] the handler is invoked zero times instead of twice, because
the deserialized `timestamp` is an ISO string whose comparison against the
`Date` bounds coerces it to NaN, making both bounds checks false. -/
theorem c4_replay_window_dead :
    EventBus.replayInvocations 0 1 replayProbeMessages = [] ∧
    getF (probeEventAt 0 "e2") "timestamp" = JVal.date 0 ∧
    getF (probeEventAt 1 "e3") "timestamp" = JVal.date 1 ∧
    EventBus.replayFilter 0 1 (jsonify (JVal.obj (probeEventAt 0 "e2"))) = false := by
  have hf : ∀ (t : Int) (n : String),
      EventBus.replayFilter 0 1 (jsonify (JVal.obj (probeEventAt t n))) = false :=
    fun t n => replayFilter_serialized (probeEventAt t n) t 0 1 rfl
  refine ⟨?_, rfl, rfl, hf 0 "e2"⟩
  simp [replayProbeMessages, EventBus.replayInvocations, hf]

/-- C8 (amended): the event-id generator is injective in its environment
draws — two invocations yield distinct ids whenever their (millisecond
clock, random suffix) draws differ, given that the suffixes are dash-free
as base-36 `Math.random` suffixes always are — but nothing prevents two
invocations from seeing identical draws, so global uniqueness is not
guaranteed unconditionally. -/
theorem c8_event_id_injective (t t' : Nat) (r r' : String)
    (hr : ('-') ∉ r.data) (hr' : ('-') ∉ r'.data)
    (hne : (t, r) ≠ (t', r')) :
    EventBus.generateEventId t r ≠ EventBus.generateEventId t' r' := by
  intro h
  apply hne
  unfold EventBus.generateEventId natRepr at h
  have hd := congrArg String.data h
  rw [str_data_append, str_data_append, str_data_append, str_data_append,
    List.append_assoc, List.append_assoc] at hd
  have hd2 : natDigits t ++ ('-') :: r.data = natDigits t' ++ ('-') :: r'.data := by
    exact hd
  obtain ⟨h1, h2⟩ := dash_split (natDigits t) (natDigits t') r.data r'.data
    (natDigits_no_dash t) (natDigits_no_dash t') hd2
  have ht : t = t' := natDigits_inj t t' h1
  have hr2 : r = r' := by
    cases r; cases r'
    exact congrArg String.mk h2
  rw [ht, hr2]

/-- Witness for C8 (amended) at concrete draws. -/
theorem c8_event_id_injective_witness :
    EventBus.generateEventId 1 "a" ≠ EventBus.generateEventId 2 "a" :=
  c8_event_id_injective 1 2 "a" "a" (by decide) (by decide) (by decide)

/-- Counterexample to C8 as stated: two distinct generator invocations that
happen to see the same millisecond clock value and the same random suffix
return the same id, so ids of distinct invocations are not always
distinct. -/
theorem c8_counterexample :
    idsOf [(5, "abc"), (5, "abc")] = ["5-abc", "5-abc"] ∧
    ¬ List.Pairwise (fun a b => a ≠ b) (idsOf [(5, "abc"), (5, "abc")]) := by
  have h5 : natRepr 5 = "5" := by
    rw [natRepr, natDigits_unfold]
    decide
  have hgen : EventBus.generateEventId 5 "abc" = "5-abc" := by
    unfold EventBus.generateEventId
    rw [h5]
    rfl
  have h : idsOf [(5, "abc"), (5, "abc")] = ["5-abc", "5-abc"] := by
    simp [idsOf, hgen]
  refine ⟨h, ?_⟩
  rw [h]
  decide
